import Mathlib

set_option maxHeartbeats 1000000
set_option maxRecDepth 4000

namespace AgentCoreSpec

/-! Shallow embedding of the streaming response decoder and its collaborators
from the repository (frontend/runtime.py, frontend/memory.py,
backend/src/identity.py, backend/src/main.py).

JSON values are modelled by an inductive type mirroring what the Python
json module produces: None, bool, numbers, str, list, dict.  Numbers keep
their literal text: the code under study never does arithmetic on them, it
only tests truthiness and type.  Dicts are association lists in insertion
order; duplicate keys resolve to the last binding, as json.loads does. -/

inductive Json where
  | null : Json
  | bool (b : Bool) : Json
  | num (lit : String) : Json
  | str (s : String) : Json
  | arr (elems : List Json) : Json
  | obj (fields : List (String × Json)) : Json

mutual

/-- Structural equality on JSON values (Python == restricted to the shapes
the embedded code compares). -/
def Json.beq : Json → Json → Bool
  | .null, .null => true
  | .bool a, .bool b => a == b
  | .num a, .num b => a == b
  | .str a, .str b => a == b
  | .arr xs, .arr ys => Json.beqList xs ys
  | .obj fs, .obj gs => Json.beqFields fs gs
  | _, _ => false

def Json.beqList : List Json → List Json → Bool
  | [], [] => true
  | x :: xs, y :: ys => Json.beq x y && Json.beqList xs ys
  | _, _ => false

def Json.beqFields : List (String × Json) → List (String × Json) → Bool
  | [], [] => true
  | kv :: fs, lw :: gs => kv.1 == lw.1 && Json.beq kv.2 lw.2 && Json.beqFields fs gs
  | _, _ => false

end

instance : BEq Json := ⟨Json.beq⟩

/-- Characters that the Lean source spells numerically. -/
def quoteC : Char := Char.ofNat 34

def aposC : Char := Char.ofNat 39

def backslashC : Char := Char.ofNat 92

def lbraceC : Char := Char.ofNat 123

def rbraceC : Char := Char.ofNat 125

/-- Last binding of a key in a dict association list (json.loads keeps the
last value for duplicate keys). -/
def jsonFind (fields : List (String × Json)) (k : String) : Option Json :=
  match fields with
  | [] => none
  | kv :: rest =>
    match jsonFind rest k with
    | some v => some v
    | none => if kv.1 == k then some kv.2 else none

/-- Python substring test, used by the str case of the `in` operator. -/
def strContains (s pat : String) : Bool :=
  if pat.isEmpty then true else (s.splitOn pat).length != 1

/-- Python `k in v`: key membership on dicts, element equality on lists,
substring on strings, TypeError otherwise. -/
def pyIn (k : String) (v : Json) : Except String Bool :=
  match v with
  | .obj fields => .ok (fields.any (fun kv => kv.1 == k))
  | .arr elems => .ok (elems.any (fun e => e == Json.str k))
  | .str s => .ok (strContains s k)
  | _ => .error "TypeError"

/-- Python `v[k]` subscription with a string key: KeyError when the key is
missing from a dict, TypeError on every non-dict value. -/
def pyGetItem (v : Json) (k : String) : Except String Json :=
  match v with
  | .obj fields =>
    match jsonFind fields k with
    | some x => .ok x
    | none => .error "KeyError"
  | _ => .error "TypeError"

/-- Python `v.get(k, dflt)`: defined on dicts only, AttributeError on any
other value. -/
def pyGet (v : Json) (k : String) (dflt : Json) : Except String Json :=
  match v with
  | .obj fields => .ok ((jsonFind fields k).getD dflt)
  | _ => .error "AttributeError"

/-- Truthiness of the zero of a number literal (significand all zero). -/
def numNonZero (lit : String) : Bool :=
  let mantissa := lit.data.takeWhile (fun c => c != 'e' && c != 'E')
  mantissa.any (fun c => c == 'N' || c == 'I') ||
    mantissa.any (fun c => c.isDigit && c != '0')

/-- Python truthiness of a JSON value. -/
def pyTruthy (v : Json) : Bool :=
  match v with
  | .null => false
  | .bool b => b
  | .num lit => numNonZero lit
  | .str s => decide (s ≠ "")
  | .arr es => !es.isEmpty
  | .obj fs => !fs.isEmpty

/-- Python isinstance(v, str). -/
def pyIsStr (v : Json) : Bool :=
  match v with
  | .str _ => true
  | _ => false

/-! JSON parser faithful to json.loads on the inputs the decoder can see:
whitespace, objects, arrays, double-quoted strings with the standard
escapes, numbers (including NaN and Infinity), true/false/null.  Single
quotes are not valid JSON.  Fuel bounds the recursion depth; the top-level
entry point supplies more fuel than any input of that length can consume. -/

def isJsonWs (c : Char) : Bool :=
  c == ' ' || c == '\t' || c == '\n' || c == '\r'

def skipWs : List Char → List Char
  | [] => []
  | c :: cs => if isJsonWs c then skipWs cs else c :: cs

def hexVal (c : Char) : Option Nat :=
  let n := c.toNat
  if 48 ≤ n ∧ n ≤ 57 then some (n - 48)
  else if 97 ≤ n ∧ n ≤ 102 then some (n - 87)
  else if 65 ≤ n ∧ n ≤ 70 then some (n - 55)
  else none

def parseStringLit : List Char → Option (List Char × List Char)
  | [] => none
  | c :: cs =>
    if c == quoteC then some ([], cs)
    else if c == backslashC then
      match cs with
      | [] => none
      | e :: cs2 =>
        if e == quoteC then (parseStringLit cs2).map (fun r => (quoteC :: r.1, r.2))
        else if e == backslashC then (parseStringLit cs2).map (fun r => (backslashC :: r.1, r.2))
        else if e == '/' then (parseStringLit cs2).map (fun r => ('/' :: r.1, r.2))
        else if e == 'b' then (parseStringLit cs2).map (fun r => ('\x08' :: r.1, r.2))
        else if e == 'f' then (parseStringLit cs2).map (fun r => ('\x0c' :: r.1, r.2))
        else if e == 'n' then (parseStringLit cs2).map (fun r => ('\n' :: r.1, r.2))
        else if e == 'r' then (parseStringLit cs2).map (fun r => ('\r' :: r.1, r.2))
        else if e == 't' then (parseStringLit cs2).map (fun r => ('\t' :: r.1, r.2))
        else if e == 'u' then
          match cs2 with
          | h1 :: h2 :: h3 :: h4 :: cs3 =>
            match hexVal h1, hexVal h2, hexVal h3, hexVal h4 with
            | some a, some b, some c2, some d =>
              (parseStringLit cs3).map
                (fun r => (Char.ofNat (((a * 16 + b) * 16 + c2) * 16 + d) :: r.1, r.2))
            | _, _, _, _ => none
          | _ => none
        else none
    else if c.toNat < 32 then none
    else (parseStringLit cs).map (fun r => (c :: r.1, r.2))

def numDigits (cs : List Char) : List Char × List Char :=
  (cs.takeWhile Char.isDigit, cs.dropWhile Char.isDigit)

def parseExpPart (lit : List Char) (cs : List Char) : Option (Json × List Char) :=
  match cs with
  | c :: rest =>
    if c == 'e' || c == 'E' then
      let sr : List Char × List Char :=
        match rest with
        | s :: r => if s == '+' || s == '-' then ([s], r) else ([], rest)
        | [] => ([], rest)
      let ds := numDigits sr.2
      if ds.1.isEmpty then none
      else some (Json.num (String.mk (lit ++ c :: (sr.1 ++ ds.1))), ds.2)
    else some (Json.num (String.mk lit), cs)
  | [] => some (Json.num (String.mk lit), [])

def parseFracPart (lit : List Char) (cs : List Char) : Option (Json × List Char) :=
  match cs with
  | c :: rest =>
    if c == '.' then
      let ds := numDigits rest
      if ds.1.isEmpty then none
      else parseExpPart (lit ++ c :: ds.1) ds.2
    else parseExpPart lit cs
  | [] => parseExpPart lit []

def parseNumber (cs : List Char) : Option (Json × List Char) :=
  let sr : List Char × List Char :=
    match cs with
    | c :: rest => if c == '-' then ([c], rest) else ([], cs)
    | [] => ([], cs)
  match sr.2 with
  | c :: rest =>
    if c == 'I' then
      if "nfinity".data.isPrefixOf rest then
        some (Json.num (String.mk (sr.1 ++ "Infinity".data)), rest.drop 7)
      else none
    else if c == '0' then parseFracPart (sr.1 ++ [c]) rest
    else if c.isDigit then
      let ds := numDigits (c :: rest)
      parseFracPart (sr.1 ++ ds.1) ds.2
    else none
  | [] => none

mutual

def parseValue (fuel : Nat) (cs : List Char) : Option (Json × List Char) :=
  match fuel with
  | 0 => none
  | fuel + 1 =>
    match skipWs cs with
    | [] => none
    | c :: rest =>
      if c == lbraceC then
        match skipWs rest with
        | [] => none
        | c2 :: r2 => if c2 == rbraceC then some (Json.obj [], r2) else parseMembers fuel rest
      else if c == '[' then
        match skipWs rest with
        | [] => none
        | c2 :: r2 => if c2 == ']' then some (Json.arr [], r2) else parseElements fuel rest
      else if c == quoteC then
        (parseStringLit rest).map (fun r => (Json.str (String.mk r.1), r.2))
      else if c == 't' then
        if "rue".data.isPrefixOf rest then some (Json.bool true, rest.drop 3) else none
      else if c == 'f' then
        if "alse".data.isPrefixOf rest then some (Json.bool false, rest.drop 4) else none
      else if c == 'n' then
        if "ull".data.isPrefixOf rest then some (Json.null, rest.drop 3) else none
      else if c == 'N' then
        if "aN".data.isPrefixOf rest then some (Json.num "NaN", rest.drop 2) else none
      else if c == '-' || c == 'I' || c.isDigit then parseNumber (c :: rest)
      else none

def parseMembers (fuel : Nat) (cs : List Char) : Option (Json × List Char) :=
  match fuel with
  | 0 => none
  | fuel + 1 =>
    match skipWs cs with
    | c :: rest =>
      if c == quoteC then
        match parseStringLit rest with
        | some (kcs, r1) =>
          match skipWs r1 with
          | c2 :: r2 =>
            if c2 == ':' then
              match parseValue fuel r2 with
              | some (v, r3) =>
                match skipWs r3 with
                | c3 :: r4 =>
                  if c3 == ',' then
                    match parseMembers fuel r4 with
                    | some (Json.obj fs, r5) => some (Json.obj ((String.mk kcs, v) :: fs), r5)
                    | _ => none
                  else if c3 == rbraceC then some (Json.obj [(String.mk kcs, v)], r4)
                  else none
                | [] => none
              | none => none
            else none
          | [] => none
        | none => none
      else none
    | [] => none

def parseElements (fuel : Nat) (cs : List Char) : Option (Json × List Char) :=
  match fuel with
  | 0 => none
  | fuel + 1 =>
    match parseValue fuel cs with
    | some (v, r1) =>
      match skipWs r1 with
      | c :: r2 =>
        if c == ',' then
          match parseElements fuel r2 with
          | some (Json.arr es, r3) => some (Json.arr (v :: es), r3)
          | _ => none
        else if c == ']' then some (Json.arr [v], r2)
        else none
      | [] => none
    | none => none

end

/-- json.loads: parse one value and require only whitespace to follow. -/
def jsonLoadsL (cs : List Char) : Option Json :=
  match parseValue (cs.length + 2) cs with
  | some (v, rest) => if (skipWs rest).isEmpty then some v else none
  | none => none

/-! The stream event decoder, invoke_agent_stream in frontend/runtime.py.

One line of the response body is classified into yielded events.  The
Python generator wraps json.loads and the classification in a try block
whose except clause catches only json.JSONDecodeError, so a dict access
that raises TypeError / KeyError / AttributeError propagates out of the
generator to the caller; the model records such an exception as the
second component of the result, which truncates the event stream. -/

inductive Ev where
  | text (t : Json)
  | toolUse (name : Json)
  | error (message : String)

/-- Lines 81 to 84 of frontend/runtime.py: the tool-use detection block.
Returns the tool name to report, if the block yields. -/
def toolBranch (v : Json) : Except String (Option Json) := do
  let b1 ← pyIn "event" v
  if b1 then
    let ev ← pyGetItem v "event"
    let b2 ← pyIn "contentBlockStart" ev
    if b2 then
      let cbs ← pyGetItem ev "contentBlockStart"
      let start1 ← pyGet cbs "start" (Json.obj [])
      let b3 ← pyIn "toolUse" start1
      if b3 then
        let ev2 ← pyGetItem v "event"
        let cbs2 ← pyGetItem ev2 "contentBlockStart"
        let start2 ← pyGetItem cbs2 "start"
        let tu ← pyGetItem start2 "toolUse"
        let name1 ← pyGet tu "name" (Json.str "unknown")
        pure (some name1)
      else pure none
    else pure none
  else pure none

/-- Lines 87 to 92 of frontend/runtime.py: the text detection if/elif.
Returns the text value to report, if one of the two branches yields. -/
def textBranch (v : Json) : Except String (Option Json) := do
  let b1 ← pyIn "data" v
  let cond1 ← (if b1 then do
      let d ← pyGetItem v "data"
      pure (pyIsStr d)
    else pure false)
  if cond1 then
    let d2 ← pyGetItem v "data"
    pure (some d2)
  else
    let b2 ← pyIn "event" v
    let cond2 ← (if b2 then do
        let ev ← pyGetItem v "event"
        pyIn "contentBlockDelta" ev
      else pure false)
    if cond2 then
      let ev2 ← pyGetItem v "event"
      let cbd ← pyGetItem ev2 "contentBlockDelta"
      let delta ← pyGetItem cbd "delta"
      let t ← pyGet delta "text" (Json.str "")
      if pyTruthy t then pure (some t) else pure none
    else pure none

/-- Classification of one parsed payload: the tool block runs first, then
the text if/elif; each block contributes at most one event, and the first
uncaught exception cuts the stream short. -/
def classify (v : Json) : List Ev × Option String :=
  match toolBranch v with
  | .error e => ([], some e)
  | .ok o1 =>
    let evs1 := match o1 with
      | some n => [Ev.toolUse n]
      | none => []
    match textBranch v with
    | .error e => (evs1, some e)
    | .ok (some t) => (evs1 ++ [Ev.text t], none)
    | .ok none => (evs1, none)

def dataPrefix : List Char := "data: ".data

/-- Line 74 of frontend/runtime.py: payloads opening with a double or a
single quote are dropped before any parsing. -/
def startsWithQuote (cs : List Char) : Bool :=
  match cs with
  | [] => false
  | c :: _ => c == quoteC || c == aposC

/-- Lines 63 to 95 of frontend/runtime.py, for a single line: skip empty
lines and lines without the prefix, strip the prefix, drop quoted scalars,
swallow json.JSONDecodeError, classify everything else. -/
def processLineL (line : List Char) : List Ev × Option String :=
  if line.isEmpty then ([], none)
  else if !(dataPrefix.isPrefixOf line) then ([], none)
  else
    let payload := line.drop 6
    if startsWithQuote payload then ([], none)
    else
      match jsonLoadsL payload with
      | none => ([], none)
      | some v => classify v

def processLineStr (s : String) : List Ev × Option String :=
  processLineL s.data

/-- The body loop of the generator: lines are processed in order and an
uncaught exception stops the iteration, discarding the rest. -/
def decodeLinesStr : List String → List Ev × Option String
  | [] => ([], none)
  | l :: ls =>
    match processLineStr l with
    | (evs, some e) => (evs, some e)
    | (evs, none) =>
      let r := decodeLinesStr ls
      (evs ++ r.1, r.2)

/-- invoke_agent_stream after the POST: a non-200 status yields exactly one
error event and returns; otherwise the body lines are decoded. -/
def invoke_agent_stream (statusCode : Nat) (bodyText : String) (lines : List String) :
    List Ev × Option String :=
  if statusCode ≠ 200 then
    ([Ev.error ("HTTP " ++ toString statusCode ++ ": " ++ String.mk (bodyText.data.take 500))], none)
  else
    decodeLinesStr lines

/-! Transcript reconstruction from the memory store.

Both frontend/memory.py (list_messages) and frontend/runtime.py
(list_session_events) first follow the pagination loop, concatenating the
raw event pages, and then convert events to chat messages.  The pure part
modelled here starts from the concatenated event list; an event carries
its timestamp and its payload, a list of JSON items.  Both functions wrap
everything in a try block catching every exception, in which case they
return the empty list. -/

structure MemMsg where
  role : String
  content : Json

structure MemEvent where
  eventTimestamp : String
  payload : List Json

/-- The helper in frontend/memory.py that digs the display text out of the
stored JSON envelope; a string that is not JSON is returned as is. -/
def extractTextContent (textRaw : String) : Except String Json :=
  match jsonLoadsL textRaw.data with
  | none => .ok (.str textRaw)
  | some parsed => do
    let b1 ← pyIn "message" parsed
    let cond ← (if b1 then do
        let m ← pyGetItem parsed "message"
        pyIn "content" m
      else pure false)
    if cond then
      let m2 ← pyGetItem parsed "message"
      let contentList ← pyGetItem m2 "content"
      match contentList with
      | .arr (first :: _) => do
        let b2 ← pyIn "text" first
        if b2 then pyGetItem first "text"
        else pure (Json.str "")
      | _ => pure (Json.str "")
    else pure (Json.str "")

/-- The per-event conversion of frontend/memory.py: return the first
payload item that carries displayable conversational text, if any. -/
def parse_event_to_message (payload : List Json) : Except String (Option MemMsg) :=
  match payload with
  | [] => .ok none
  | item :: rest => do
    let b ← pyIn "conversational" item
    if b then
      let conv ← pyGetItem item "conversational"
      let roleRaw ← pyGet conv "role" (Json.str "USER")
      let role := if roleRaw == Json.str "USER" then "user" else "assistant"
      let contentDict ← pyGet conv "content" (Json.obj [])
      let textRaw ← pyGet contentDict "text" (Json.str "")
      if pyTruthy textRaw then
        match textRaw with
        | .str s => do
          let content ← extractTextContent s
          if pyTruthy content then pure (some ⟨role, content⟩)
          else parse_event_to_message rest
        | _ => .error "TypeError"
      else parse_event_to_message rest
    else parse_event_to_message rest

/-- Ascending comparison on event timestamps, the sort key of line 136 of
frontend/memory.py: lexicographic comparison by code point, as Python
compares the timestamp strings. -/
def tsLe (a b : MemEvent) : Prop :=
  a.eventTimestamp.data ≤ b.eventTimestamp.data

instance : DecidableRel tsLe := fun a b =>
  inferInstanceAs (Decidable (a.eventTimestamp.data ≤ b.eventTimestamp.data))

instance : IsTotal MemEvent tsLe :=
  ⟨fun a b => le_total a.eventTimestamp.data b.eventTimestamp.data⟩

instance : IsTrans MemEvent tsLe :=
  ⟨fun _ _ _ h1 h2 => le_trans h1 h2⟩

/-- Python sorted with the timestamp key: a stable sort by the key, here
realised as an insertion sort. -/
def sortEvents (es : List MemEvent) : List MemEvent :=
  List.insertionSort tsLe es

def collectMessages : List MemEvent → Except String (List MemMsg)
  | [] => .ok []
  | e :: rest => do
    let m ← parse_event_to_message e.payload
    let ms ← collectMessages rest
    match m with
    | some msg => pure (msg :: ms)
    | none => pure ms

/-- list_messages in frontend/memory.py: sort the listed events oldest
first by eventTimestamp, then convert; any exception yields []. -/
def list_messages (events : List MemEvent) : List MemMsg :=
  match collectMessages (sortEvents events) with
  | .ok ms => ms
  | .error _ => []

/-- The per-item conversion inlined in list_session_events of
frontend/runtime.py; unlike memory.py it inspects every payload item of
every event, and its inner try catches only json.JSONDecodeError. -/
def convertItemRt (item : Json) : Except String (Option MemMsg) := do
  let b ← pyIn "conversational" item
  if b then
    let conv ← pyGetItem item "conversational"
    let roleRaw ← pyGet conv "role" (Json.str "USER")
    let role := if roleRaw == Json.str "USER" then "user" else "assistant"
    let contentDict ← pyGet conv "content" (Json.obj [])
    let textRaw ← pyGet contentDict "text" (Json.str "")
    let content ← (if pyTruthy textRaw then
        match textRaw with
        | .str s =>
          match jsonLoadsL s.data with
          | none => pure (Json.str s)
          | some parsed => do
            let b1 ← pyIn "message" parsed
            let cond ← (if b1 then do
                let m ← pyGetItem parsed "message"
                pyIn "content" m
              else pure false)
            if cond then
              let m2 ← pyGetItem parsed "message"
              let contentList ← pyGetItem m2 "content"
              match contentList with
              | .arr (first :: _) => do
                let b2 ← pyIn "text" first
                if b2 then pyGetItem first "text"
                else pure (Json.str "")
              | _ => pure (Json.str "")
            else pure (Json.str "")
        | _ => .error "TypeError"
      else pure (Json.str ""))
    if pyTruthy content then pure (some ⟨role, content⟩) else pure none
  else pure none

def convertItemsRt : List Json → Except String (List MemMsg)
  | [] => .ok []
  | item :: rest => do
    let m ← convertItemRt item
    let ms ← convertItemsRt rest
    match m with
    | some msg => pure (msg :: ms)
    | none => pure ms

def convertEventsRt : List MemEvent → Except String (List MemMsg)
  | [] => .ok []
  | e :: rest => do
    let ms1 ← convertItemsRt e.payload
    let ms2 ← convertEventsRt rest
    pure (ms1 ++ ms2)

/-- list_session_events in frontend/runtime.py: convert the listed events
in the order the pagination returned them, with no sort; any exception
yields []. -/
def list_session_events (events : List MemEvent) : List MemMsg :=
  match convertEventsRt events with
  | .ok ms => ms
  | .error _ => []

/-! Identity parameter validation, backend/src/identity.py, and the prefix
of the backend entrypoint invoke in backend/src/main.py that runs before
any session manager or request is created. -/

/-- validate_identity_params: empty (or absent) values are reported one by
one, then session ids shorter than 33 characters are rejected.  The len
call raises TypeError on values without a length. -/
def validate_identity_params (accessToken actorId sessionId : Json) :
    Except String (Option String) := do
  if !pyTruthy accessToken then pure (some "access_tokenが指定されていません")
  else if !pyTruthy actorId then pure (some "actor_idが指定されていません")
  else if !pyTruthy sessionId then pure (some "session_idが指定されていません")
  else
    let n ← (match sessionId with
      | .str s => pure s.length
      | .arr es => pure es.length
      | .obj fs => pure fs.length
      | _ => (.error "TypeError" : Except String Nat))
    if n < 33 then pure (some "session_idは33文字以上にしてください（UUIDを推奨）")
    else pure none

/-- What the entrypoint does before reaching the agent call: either it
yields a single error message and returns (no request is constructed), or
it proceeds to build the session manager and invoke the agent, or an
exception escapes. -/
inductive InvokeOutcome where
  | errorOnly (msg : String)
  | proceeds
  | raises (e : String)
deriving DecidableEq

/-- The validation prefix of invoke in backend/src/main.py. -/
def invoke (payload : Json) : InvokeOutcome :=
  match (do
    let _prompt ← pyGet payload "prompt" (Json.str "Hello!")
    let accessToken ← pyGet payload "access_token" Json.null
    let gatewayUrl ← pyGet payload "gateway_url" Json.null
    let sessionId ← pyGet payload "session_id" Json.null
    let actorId ← pyGet payload "actor_id" Json.null
    let err ← validate_identity_params accessToken actorId sessionId
    match err with
    | some e => pure (some ("エラー: " ++ e))
    | none =>
      if !pyTruthy gatewayUrl then pure (some "エラー: gateway_urlが指定されていません")
      else pure none : Except String (Option String)) with
  | .error e => .raises e
  | .ok (some m) => .errorOnly m
  | .ok none => .proceeds

/-! Payload shapes named by the specification. -/

/-- The object with a single top-level data field bound to a string. -/
abbrev dataVal (s : String) : Json :=
  Json.obj [("data", Json.str s)]

/-- The nested content-block-delta shape carrying a text fragment. -/
abbrev cbDeltaVal (t : String) : Json :=
  Json.obj [("event", Json.obj [("contentBlockDelta",
    Json.obj [("delta", Json.obj [("text", Json.str t)])])])]

/-- The content-block-delta shape whose delta object has no text field. -/
abbrev cbDeltaNoText : Json :=
  Json.obj [("event", Json.obj [("contentBlockDelta",
    Json.obj [("delta", Json.obj [])])])]

/-- The content-block-start shape announcing a tool invocation. -/
abbrev toolStartVal (u : Json) : Json :=
  Json.obj [("event", Json.obj [("contentBlockStart",
    Json.obj [("start", Json.obj [("toolUse", u)])])])]

/-- A payload carrying both the tool-start marker and a top-level string
data field. -/
abbrev bothVal (name hi : String) : Json :=
  Json.obj [("event", Json.obj [("contentBlockStart",
      Json.obj [("start", Json.obj [("toolUse", Json.obj [("name", Json.str name)])])])]),
    ("data", Json.str hi)]

/-- Event kind tests used to count events of each kind per line. -/
def Ev.isTextEv : Ev → Bool
  | .text _ => true
  | _ => false

def Ev.isToolEv : Ev → Bool
  | .toolUse _ => true
  | _ => false

/-- Concatenation of the texts of the string-valued TextDelta events, the
accumulated reply of one turn. -/
def textConcat : List Ev → String
  | [] => ""
  | Ev.text (Json.str s) :: rest => s ++ textConcat rest
  | _ :: rest => textConcat rest

/-- Concatenation of a list of text chunks. -/
def stringConcatAll : List String → String
  | [] => ""
  | s :: rest => s ++ stringConcatAll rest

/-- A stored conversational payload item carrying plain user text, as the
memory store returns it. -/
def sampleConvItem (text1 : String) : Json :=
  Json.obj [("conversational", Json.obj [("role", Json.str "USER"),
    ("content", Json.obj [("text", Json.str text1)])])]

def sampleEventNewer : MemEvent :=
  ⟨"2025-01-02T00:00:00Z", [sampleConvItem "B"]⟩

def sampleEventOlder : MemEvent :=
  ⟨"2025-01-01T00:00:00Z", [sampleConvItem "A"]⟩

/-- The request payload the frontend posts, restricted to the fields the
entrypoint reads. -/
def mkInvokePayload (a c s g : String) : Json :=
  Json.obj [("prompt", Json.str "hi"), ("access_token", Json.str a),
    ("gateway_url", Json.str g), ("session_id", Json.str s), ("actor_id", Json.str c)]

/-! Framing lemmas: a line of the form "data: " followed by a payload
passes the prefix test and hands exactly the payload to the later
stages. -/

theorem processLine_data (p : String) :
    processLineStr ("data: " ++ p) =
      (if startsWithQuote p.data then ([], none)
       else
         match jsonLoadsL p.data with
         | none => ([], none)
         | some v => classify v) := by
  show processLineL ("data: " ++ p).data = _
  rw [String.data_append]
  show processLineL (['d', 'a', 't', 'a', ':', ' '] ++ p.data) = _
  have hpre : dataPrefix.isPrefixOf (['d', 'a', 't', 'a', ':', ' '] ++ p.data) = true := by
    simp [dataPrefix, List.isPrefixOf]
  have hdrop : (['d', 'a', 't', 'a', ':', ' '] ++ p.data).drop 6 = p.data := by
    have h6 : 6 = (['d', 'a', 't', 'a', ':', ' '] : List Char).length := rfl
    rw [h6, List.drop_left]
  have hne : (['d', 'a', 't', 'a', ':', ' '] ++ p.data).isEmpty = false := rfl
  simp only [processLineL, hne, hpre, hdrop, Bool.not_true, Bool.false_eq_true, if_false]

theorem parseValue_dquote (fuel : Nat) (cs : List Char) :
    parseValue (fuel + 1) (quoteC :: cs) =
      (parseStringLit cs).map (fun r => (Json.str (String.mk r.1), r.2)) := by
  have hws : isJsonWs quoteC = false := by decide
  have h1 : skipWs (quoteC :: cs) = quoteC :: cs := by simp [skipWs, hws]
  have e1 : quoteC ≠ lbraceC := by decide
  have e2 : quoteC ≠ '[' := by decide
  rw [parseValue]
  simp [h1, e1, e2]

theorem parseValue_squote (fuel : Nat) (cs : List Char) :
    parseValue (fuel + 1) (aposC :: cs) = none := by
  have hws : isJsonWs aposC = false := by decide
  have h1 : skipWs (aposC :: cs) = aposC :: cs := by simp [skipWs, hws]
  have e1 : aposC ≠ lbraceC := by decide
  have e2 : aposC ≠ '[' := by decide
  have e3 : aposC ≠ quoteC := by decide
  have e4 : aposC ≠ 't' := by decide
  have e5 : aposC ≠ 'f' := by decide
  have e6 : aposC ≠ 'n' := by decide
  have e7 : aposC ≠ 'N' := by decide
  have e8 : aposC ≠ '-' := by decide
  have e9 : aposC ≠ 'I' := by decide
  have e10 : aposC.isDigit = false := by decide
  rw [parseValue]
  simp [h1, e1, e2, e3, e4, e5, e6, e7, e8, e9, e10]

theorem jsonLoadsL_dquote (cs : List Char) (v : Json)
    (h : jsonLoadsL (quoteC :: cs) = some v) : ∃ s, v = Json.str s := by
  unfold jsonLoadsL at h
  have hl : (quoteC :: cs).length + 2 = (cs.length + 2) + 1 := by
    simp [List.length_cons]
  rw [hl, parseValue_dquote] at h
  cases hps : parseStringLit cs with
  | none => rw [hps] at h; simp at h
  | some r =>
    rw [hps] at h
    by_cases he : (skipWs r.2).isEmpty
    · simp [he] at h
      exact ⟨String.mk r.1, h.symm⟩
    · simp [he] at h

theorem jsonLoadsL_squote (cs : List Char) : jsonLoadsL (aposC :: cs) = none := by
  unfold jsonLoadsL
  have hl : (aposC :: cs).length + 2 = (cs.length + 2) + 1 := by
    simp [List.length_cons]
  rw [hl, parseValue_squote]

/-- A payload that parses to an object is not dropped by the quote filter,
so the decoder classifies exactly its parsed value. -/
theorem processLine_obj (p : String) (fs : List (String × Json))
    (h : jsonLoadsL p.data = some (Json.obj fs)) :
    processLineStr ("data: " ++ p) = classify (Json.obj fs) := by
  have hq : startsWithQuote p.data = false := by
    cases hd : p.data with
    | nil =>
      rw [hd] at h
      simp [show jsonLoadsL ([] : List Char) = none from rfl] at h
    | cons c rest =>
      rw [hd] at h
      by_cases hc : c = quoteC
      · subst hc
        rcases jsonLoadsL_dquote rest _ h with ⟨s, hs⟩
        simp at hs
      · by_cases hc2 : c = aposC
        · subst hc2
          rw [jsonLoadsL_squote] at h
          simp at h
        · simp [startsWithQuote, hc, hc2]
  rw [processLine_data]
  simp [hq, h]

/-! Evaluation of the classifier on the shapes the specification names.
The payload values are concrete apart from the embedded strings, which the
classifier never inspects except for the truthiness test of the delta
text, so most of these are definitional. -/

theorem classify_dataVal (s : String) :
    classify (dataVal s) = ([Ev.text (Json.str s)], none) := rfl

theorem classify_cbDelta (t : String) (h : t ≠ "") :
    classify (cbDeltaVal t) = ([Ev.text (Json.str t)], none) := by
  have h1 : textBranch (cbDeltaVal t) =
      (if pyTruthy (Json.str t) then .ok (some (Json.str t)) else .ok none) := rfl
  have h2 : pyTruthy (Json.str t) = true := by simp [pyTruthy, h]
  have h3 : toolBranch (cbDeltaVal t) = .ok none := rfl
  rw [classify, h3, h1, h2]
  simp

theorem classify_cbDelta_empty : classify (cbDeltaVal "") = ([], none) := rfl

theorem classify_cbDeltaNoText : classify cbDeltaNoText = ([], none) := rfl

theorem classify_toolStart (ufs : List (String × Json)) :
    classify (toolStartVal (Json.obj ufs)) =
      ([Ev.toolUse ((jsonFind ufs "name").getD (Json.str "unknown"))], none) := rfl

theorem classify_bothVal (name hi : String) :
    classify (bothVal name hi) =
      ([Ev.toolUse (Json.str name), Ev.text (Json.str hi)], none) := rfl

/-- Claim C3: for every response whose HTTP status code is not 200,
invoke_agent_stream emits exactly one Error event and terminates without
processing any line of the body, whatever the body holds. -/
theorem claim_C3 (statusCode : Nat) (bodyText : String) (lines : List String)
    (h : statusCode ≠ 200) :
    invoke_agent_stream statusCode bodyText lines =
      ([Ev.error ("HTTP " ++ toString statusCode ++ ": " ++ String.mk (bodyText.data.take 500))], none) := by
  simp [invoke_agent_stream, h]

theorem claim_C3_witness :
    (404 : Nat) ≠ 200 ∧
      invoke_agent_stream 404 "boom" ["data: \x7b\"data\": \"x\"\x7d"] =
        ([Ev.error "HTTP 404: boom"], none) :=
  ⟨by decide, claim_C3 404 "boom" ["data: \x7b\"data\": \"x\"\x7d"] (by decide)⟩

/-- Claim C4: a line whose payload is the object binding the data field to
the string s yields exactly one TextDelta with text s; a line carrying the
nested contentBlockDelta shape with text t yields exactly one TextDelta
when t is non-empty, and nothing when t is the empty string or the text
field is absent. -/
theorem claim_C4 (s t : String) (p q r : String) :
    (jsonLoadsL p.data = some (dataVal s) →
      processLineStr ("data: " ++ p) = ([Ev.text (Json.str s)], none)) ∧
    (t ≠ "" → jsonLoadsL q.data = some (cbDeltaVal t) →
      processLineStr ("data: " ++ q) = ([Ev.text (Json.str t)], none)) ∧
    (jsonLoadsL q.data = some (cbDeltaVal "") →
      processLineStr ("data: " ++ q) = ([], none)) ∧
    (jsonLoadsL r.data = some cbDeltaNoText →
      processLineStr ("data: " ++ r) = ([], none)) := by
  refine ⟨fun h => ?_, fun ht h => ?_, fun h => ?_, fun h => ?_⟩
  · rw [processLine_obj p _ h, classify_dataVal]
  · rw [processLine_obj q _ h, classify_cbDelta t ht]
  · rw [processLine_obj q _ h, classify_cbDelta_empty]
  · rw [processLine_obj r _ h, classify_cbDeltaNoText]

theorem claim_C4_witness :
    processLineStr ("data: " ++ "\x7b\"data\": \"hello\"\x7d") =
        ([Ev.text (Json.str "hello")], none) ∧
      processLineStr
          ("data: " ++ "\x7b\"event\":\x7b\"contentBlockDelta\":\x7b\"delta\":\x7b\"text\":\"hi\"\x7d\x7d\x7d\x7d") =
        ([Ev.text (Json.str "hi")], none) ∧
      processLineStr
          ("data: " ++ "\x7b\"event\":\x7b\"contentBlockDelta\":\x7b\"delta\":\x7b\"text\":\"\"\x7d\x7d\x7d\x7d") =
        ([], none) ∧
      processLineStr
          ("data: " ++ "\x7b\"event\":\x7b\"contentBlockDelta\":\x7b\"delta\":\x7b\x7d\x7d\x7d\x7d") =
        ([], none) :=
  ⟨(claim_C4 "hello" "x" "\x7b\"data\": \"hello\"\x7d" "x" "x").1 rfl,
    (claim_C4 "x" "hi" "x"
        "\x7b\"event\":\x7b\"contentBlockDelta\":\x7b\"delta\":\x7b\"text\":\"hi\"\x7d\x7d\x7d\x7d" "x").2.1
      (by decide) rfl,
    (claim_C4 "x" "x" "x"
        "\x7b\"event\":\x7b\"contentBlockDelta\":\x7b\"delta\":\x7b\"text\":\"\"\x7d\x7d\x7d\x7d" "x").2.2.1
      rfl,
    (claim_C4 "x" "x" "x" "x"
        "\x7b\"event\":\x7b\"contentBlockDelta\":\x7b\"delta\":\x7b\x7d\x7d\x7d\x7d").2.2.2
      rfl⟩

/-- Claim C5: a payload of the content-block-start shape whose toolUse
value is the object u yields exactly one ToolInvocation named by u's name
field when that field is present, and named unknown when it is absent. -/
theorem claim_C5 (ufs : List (String × Json)) (p : String) (n : Json)
    (h : jsonLoadsL p.data = some (toolStartVal (Json.obj ufs))) :
    (jsonFind ufs "name" = some n →
      processLineStr ("data: " ++ p) = ([Ev.toolUse n], none)) ∧
    (jsonFind ufs "name" = none →
      processLineStr ("data: " ++ p) = ([Ev.toolUse (Json.str "unknown")], none)) := by
  constructor
  · intro hn
    rw [processLine_obj p _ h, classify_toolStart, hn]
    rfl
  · intro hn
    rw [processLine_obj p _ h, classify_toolStart, hn]
    rfl

theorem claim_C5_witness :
    processLineStr
        ("data: " ++
          "\x7b\"event\":\x7b\"contentBlockStart\":\x7b\"start\":\x7b\"toolUse\":\x7b\"name\":\"search\"\x7d\x7d\x7d\x7d\x7d") =
      ([Ev.toolUse (Json.str "search")], none) ∧
    processLineStr
        ("data: " ++
          "\x7b\"event\":\x7b\"contentBlockStart\":\x7b\"start\":\x7b\"toolUse\":\x7b\x7d\x7d\x7d\x7d\x7d") =
      ([Ev.toolUse (Json.str "unknown")], none) :=
  ⟨(claim_C5 [("name", Json.str "search")]
        "\x7b\"event\":\x7b\"contentBlockStart\":\x7b\"start\":\x7b\"toolUse\":\x7b\"name\":\"search\"\x7d\x7d\x7d\x7d\x7d"
        (Json.str "search") rfl).1 rfl,
    (claim_C5 []
        "\x7b\"event\":\x7b\"contentBlockStart\":\x7b\"start\":\x7b\"toolUse\":\x7b\x7d\x7d\x7d\x7d\x7d"
        Json.null rfl).2 rfl⟩

/-- Claim C6: a payload whose first character is a double or single quote
yields no event, even when the payload is valid JSON; the quote filter
runs before the JSON parse. -/
theorem claim_C6 (p : String) (h : startsWithQuote p.data = true) :
    processLineStr ("data: " ++ p) = ([], none) := by
  rw [processLine_data, h]
  simp

theorem claim_C6_witness :
    startsWithQuote ("\"hello\"".data) = true ∧
      jsonLoadsL ("\"hello\"".data) = some (Json.str "hello") ∧
      processLineStr ("data: " ++ "\"hello\"") = ([], none) :=
  ⟨rfl, rfl, claim_C6 "\"hello\"" rfl⟩

/-- Claim C10: the empty-text suppression belongs to the nested
contentBlockDelta path only: a payload binding the top-level data field to
the empty string yields one TextDelta whose text is empty, while the
contentBlockDelta shape with empty text yields nothing. -/
theorem claim_C10 (p q : String) :
    (jsonLoadsL p.data = some (dataVal "") →
      processLineStr ("data: " ++ p) = ([Ev.text (Json.str "")], none)) ∧
    (jsonLoadsL q.data = some (cbDeltaVal "") →
      processLineStr ("data: " ++ q) = ([], none)) := by
  constructor
  · intro h
    rw [processLine_obj p _ h, classify_dataVal]
  · intro h
    rw [processLine_obj q _ h, classify_cbDelta_empty]

theorem claim_C10_witness :
    processLineStr ("data: " ++ "\x7b\"data\": \"\"\x7d") =
        ([Ev.text (Json.str "")], none) ∧
      processLineStr
          ("data: " ++ "\x7b\"event\":\x7b\"contentBlockDelta\":\x7b\"delta\":\x7b\"text\":\"\"\x7d\x7d\x7d\x7d") =
        ([], none) :=
  ⟨(claim_C10 "\x7b\"data\": \"\"\x7d" "x").1 rfl,
    (claim_C10 "x"
        "\x7b\"event\":\x7b\"contentBlockDelta\":\x7b\"delta\":\x7b\"text\":\"\"\x7d\x7d\x7d\x7d").2 rfl⟩

/-- Claim C1 counterexample: the payload null parses as JSON, but the
membership test on the parsed value raises an uncaught TypeError, so the
decoder raises to the caller and the following well-formed line is never
processed; decoded alone, that following line yields its event. -/
theorem claim_C1_counterexample :
    processLineStr "data: null" = ([], some "TypeError") ∧
      decodeLinesStr ["data: null", "data: \x7b\"data\": \"ok\"\x7d"] = ([], some "TypeError") ∧
      decodeLinesStr ["data: \x7b\"data\": \"ok\"\x7d"] = ([Ev.text (Json.str "ok")], none) :=
  ⟨rfl, rfl, rfl⟩

/-- Claim C1 (amended): a line whose payload fails JSON parsing produces
no event and no exception, and decoding continues with the subsequent
lines; a payload that parses to a value of unexpected shape may instead
raise an uncaught exception, which terminates the stream. -/
theorem claim_C1_amended (p : String) (rest : List String)
    (h : jsonLoadsL p.data = none) :
    processLineStr ("data: " ++ p) = ([], none) ∧
      decodeLinesStr (("data: " ++ p) :: rest) = decodeLinesStr rest := by
  have h1 : processLineStr ("data: " ++ p) = ([], none) := by
    rw [processLine_data]
    by_cases hq : startsWithQuote p.data
    · simp [hq]
    · simp [hq, h]
  refine ⟨h1, ?_⟩
  simp [decodeLinesStr, h1]

theorem claim_C1_witness :
    processLineStr ("data: " ++ "\x7bbad") = ([], none) ∧
      decodeLinesStr (("data: " ++ "\x7bbad") :: ["data: \x7b\"data\": \"ok\"\x7d"]) =
        decodeLinesStr ["data: \x7b\"data\": \"ok\"\x7d"] :=
  claim_C1_amended "\x7bbad" ["data: \x7b\"data\": \"ok\"\x7d"] rfl

/-- Claim C2 counterexample: a line whose payload carries both the
tool-start marker and a string-valued data field yields two events, not
one. -/
theorem claim_C2_counterexample :
    processLineStr
        "data: \x7b\"event\":\x7b\"contentBlockStart\":\x7b\"start\":\x7b\"toolUse\":\x7b\"name\":\"t\"\x7d\x7d\x7d\x7d,\"data\":\"hi\"\x7d" =
      ([Ev.toolUse (Json.str "t"), Ev.text (Json.str "hi")], none) ∧
      (processLineStr
          "data: \x7b\"event\":\x7b\"contentBlockStart\":\x7b\"start\":\x7b\"toolUse\":\x7b\"name\":\"t\"\x7d\x7d\x7d\x7d,\"data\":\"hi\"\x7d").1.length =
        2 :=
  ⟨rfl, rfl⟩

/-- Claim C2 (amended): the tool-start detection is an independent if
statement preceding the text if/elif chain, so one line yields at most one
ToolInvocation and at most one TextDelta, ToolInvocation first; a payload
carrying both the tool-start marker and a string-valued data field yields
exactly those two events. -/
theorem claim_C2_amended (v : Json) (name hi : String) :
    ((classify v).1.filter Ev.isTextEv).length ≤ 1 ∧
      ((classify v).1.filter Ev.isToolEv).length ≤ 1 ∧
      classify (bothVal name hi) =
        ([Ev.toolUse (Json.str name), Ev.text (Json.str hi)], none) := by
  refine ⟨?_, ?_, classify_bothVal name hi⟩ <;>
  · unfold classify
    cases toolBranch v with
    | error e => simp
    | ok o1 =>
      cases textBranch v with
      | error e => cases o1 <;> simp [Ev.isTextEv, Ev.isToolEv]
      | ok o2 => cases o1 <;> cases o2 <;> simp [Ev.isTextEv, Ev.isToolEv]

/-- Claim C7 counterexample: a line that raises an uncaught exception
truncates the stream, so decoding a concatenation is not decoding the
pieces independently. -/
theorem claim_C7_counterexample :
    (decodeLinesStr (["data: null"] ++ ["data: " ++ "\x7b\"data\": \"a\"\x7d"])).1 = [] ∧
      (decodeLinesStr ["data: null"]).1 ++
          (decodeLinesStr ["data: " ++ "\x7b\"data\": \"a\"\x7d"]).1 =
        [Ev.text (Json.str "a")] ∧
      ([] : List Ev) ≠ [Ev.text (Json.str "a")] :=
  ⟨rfl, rfl, by simp⟩

/-- Claim C7 (amended): as long as no line raises an uncaught exception,
decoding is a stateless per-line map, so decoding a concatenation of line
lists concatenates the decodings and events keep the order of their lines;
and over contentBlockDelta lines the concatenation of the emitted texts
equals the concatenation of the chunks, however the turn text was split. -/
theorem claim_C7_amended :
    (∀ xs ys : List String, (decodeLinesStr xs).2 = none →
      decodeLinesStr (xs ++ ys) =
        ((decodeLinesStr xs).1 ++ (decodeLinesStr ys).1, (decodeLinesStr ys).2)) ∧
    (∀ lines ts : List String,
      List.Forall₂
        (fun l t => ∃ p, l = "data: " ++ p ∧ jsonLoadsL p.data = some (cbDeltaVal t))
        lines ts →
      textConcat (decodeLinesStr lines).1 = stringConcatAll ts) := by
  constructor
  · intro xs
    induction xs with
    | nil => intro ys _; simp [decodeLinesStr]
    | cons l ls ih =>
      intro ys hx
      rcases hpl : processLineStr l with ⟨evs, exc⟩
      cases exc with
      | some e =>
        exfalso
        rw [show decodeLinesStr (l :: ls) = (evs, some e) by
          simp [decodeLinesStr, hpl]] at hx
        simp at hx
      | none =>
        have hx2 : (decodeLinesStr ls).2 = none := by
          rw [show decodeLinesStr (l :: ls) = (evs ++ (decodeLinesStr ls).1,
            (decodeLinesStr ls).2) by simp [decodeLinesStr, hpl]] at hx
          exact hx
        have ha : decodeLinesStr (l :: (ls ++ ys)) =
            (evs ++ (decodeLinesStr (ls ++ ys)).1, (decodeLinesStr (ls ++ ys)).2) := by
          simp [decodeLinesStr, hpl]
        rw [List.cons_append, ha, ih ys hx2]
        simp [decodeLinesStr, hpl, List.append_assoc]
  · intro lines ts hf
    induction hf with
    | nil => simp [decodeLinesStr, textConcat, stringConcatAll]
    | @cons l t ls ts2 hpair hrest ih =>
      rcases hpair with ⟨p, hlp, hjson⟩
      subst hlp
      by_cases ht : t = ""
      · subst ht
        have h1 : processLineStr ("data: " ++ p) = ([], none) := by
          rw [processLine_obj p _ hjson, classify_cbDelta_empty]
        simp [decodeLinesStr, h1, textConcat, stringConcatAll, ih]
      · have h1 : processLineStr ("data: " ++ p) = ([Ev.text (Json.str t)], none) := by
          rw [processLine_obj p _ hjson, classify_cbDelta t ht]
        simp [decodeLinesStr, h1, textConcat, stringConcatAll, ih]

theorem claim_C7_witness :
    decodeLinesStr (["data: " ++ "\x7b\"data\": \"a\"\x7d"] ++
          ["data: " ++ "\x7b\"data\": \"b\"\x7d"]) =
        ([Ev.text (Json.str "a"), Ev.text (Json.str "b")], none) ∧
      textConcat (decodeLinesStr
          ["data: " ++ "\x7b\"event\":\x7b\"contentBlockDelta\":\x7b\"delta\":\x7b\"text\":\"he\"\x7d\x7d\x7d\x7d",
            "data: " ++ "\x7b\"event\":\x7b\"contentBlockDelta\":\x7b\"delta\":\x7b\"text\":\"llo\"\x7d\x7d\x7d\x7d"]).1 =
        "hello" ∧
      textConcat (decodeLinesStr
          ["data: " ++ "\x7b\"event\":\x7b\"contentBlockDelta\":\x7b\"delta\":\x7b\"text\":\"hello\"\x7d\x7d\x7d\x7d"]).1 =
        "hello" :=
  ⟨claim_C7_amended.1 ["data: " ++ "\x7b\"data\": \"a\"\x7d"]
      ["data: " ++ "\x7b\"data\": \"b\"\x7d"] rfl,
    claim_C7_amended.2 _ ["he", "llo"]
      (List.Forall₂.cons
        ⟨"\x7b\"event\":\x7b\"contentBlockDelta\":\x7b\"delta\":\x7b\"text\":\"he\"\x7d\x7d\x7d\x7d", rfl, rfl⟩
        (List.Forall₂.cons
          ⟨"\x7b\"event\":\x7b\"contentBlockDelta\":\x7b\"delta\":\x7b\"text\":\"llo\"\x7d\x7d\x7d\x7d", rfl, rfl⟩
          List.Forall₂.nil)),
    claim_C7_amended.2 _ ["hello"]
      (List.Forall₂.cons
        ⟨"\x7b\"event\":\x7b\"contentBlockDelta\":\x7b\"delta\":\x7b\"text\":\"hello\"\x7d\x7d\x7d\x7d", rfl, rfl⟩
        List.Forall₂.nil)⟩

/-- Claim C8 counterexample: when the paginated listing returns the newer
event before the older one, list_session_events of frontend/runtime.py
returns the messages in listing order, newest first, while the sort key
orders the older event first, as list_messages of frontend/memory.py
does. -/
theorem claim_C8_counterexample :
    list_session_events [sampleEventNewer, sampleEventOlder] =
        [⟨"user", Json.str "B"⟩, ⟨"user", Json.str "A"⟩] ∧
      sortEvents [sampleEventNewer, sampleEventOlder] =
        [sampleEventOlder, sampleEventNewer] ∧
      list_messages [sampleEventNewer, sampleEventOlder] =
        [⟨"user", Json.str "A"⟩, ⟨"user", Json.str "B"⟩] :=
  ⟨rfl, rfl, rfl⟩

/-- Claim C8 (amended): the transcript reconstruction of
frontend/memory.py sorts the listed events oldest first by eventTimestamp
before converting them, whatever order the pagination returned; the
reconstruction of frontend/runtime.py performs no such sort and keeps the
listing order. -/
theorem claim_C8_amended (events : List MemEvent) :
    (sortEvents events).Pairwise tsLe ∧
      (sortEvents events).Perm events ∧
      list_messages events =
        (match collectMessages (sortEvents events) with
         | .ok ms => ms
         | .error _ => []) :=
  ⟨List.sorted_insertionSort tsLe events, List.perm_insertionSort tsLe events, rfl⟩

/-- The backend entrypoint on a request payload with string fields: it
reports the validation message and stops, or checks the gateway url, or
lets an exception escape. -/
theorem invoke_mkPayload (a c s g : String) :
    invoke (mkInvokePayload a c s g) =
      (match validate_identity_params (Json.str a) (Json.str c) (Json.str s) with
       | .error e => InvokeOutcome.raises e
       | .ok (some m) => InvokeOutcome.errorOnly ("エラー: " ++ m)
       | .ok none =>
         if !pyTruthy (Json.str g) then
           InvokeOutcome.errorOnly "エラー: gateway_urlが指定されていません"
         else InvokeOutcome.proceeds) := by
  rcases hv : validate_identity_params (Json.str a) (Json.str c) (Json.str s) with e | o
  · simp [invoke, mkInvokePayload, pyGet, jsonFind, hv, Bind.bind, Except.bind, Pure.pure, Except.pure]
  · rcases o with _ | m
    · cases hg : pyTruthy (Json.str g) <;>
        simp [invoke, mkInvokePayload, pyGet, jsonFind, hv, hg, Bind.bind, Except.bind,
          Pure.pure, Except.pure]
    · simp [invoke, mkInvokePayload, pyGet, jsonFind, hv, Bind.bind, Except.bind, Pure.pure, Except.pure]

/-- Claim C9 counterexample: with all three parameters present but a
session id shorter than 33 characters, validate_identity_params still
returns an error message and the entrypoint does not proceed to send a
request. -/
theorem claim_C9_counterexample :
    validate_identity_params (Json.str "tok") (Json.str "actor") (Json.str "sess") =
        .ok (some "session_idは33文字以上にしてください（UUIDを推奨）") ∧
      ("tok" : String) ≠ "" ∧ ("actor" : String) ≠ "" ∧ ("sess" : String) ≠ "" ∧
      invoke (mkInvokePayload "tok" "actor" "sess" "https://gw") ≠ InvokeOutcome.proceeds :=
  ⟨rfl, by decide, by decide, by decide, by decide⟩

/-- Claim C9 (amended): validate_identity_params reports a user-visible
message when access_token, actor_id or session_id is empty, and also when
all three are present but the session id is shorter than 33 characters; it
returns None exactly when all three are present and the session id is at
least 33 characters long; whenever it returns a message, the backend
entrypoint yields that message prefixed with an error marker and sends no
request. -/
theorem claim_C9_amended (a c s g : String) :
    (validate_identity_params (Json.str "") (Json.str c) (Json.str s) =
      .ok (some "access_tokenが指定されていません")) ∧
    (a ≠ "" → validate_identity_params (Json.str a) (Json.str "") (Json.str s) =
      .ok (some "actor_idが指定されていません")) ∧
    (a ≠ "" → c ≠ "" → validate_identity_params (Json.str a) (Json.str c) (Json.str "") =
      .ok (some "session_idが指定されていません")) ∧
    (a ≠ "" → c ≠ "" → s ≠ "" → s.length < 33 →
      validate_identity_params (Json.str a) (Json.str c) (Json.str s) =
        .ok (some "session_idは33文字以上にしてください（UUIDを推奨）")) ∧
    (a ≠ "" → c ≠ "" → 33 ≤ s.length →
      validate_identity_params (Json.str a) (Json.str c) (Json.str s) = .ok none) ∧
    (∀ m : String,
      validate_identity_params (Json.str a) (Json.str c) (Json.str s) = .ok (some m) →
      invoke (mkInvokePayload a c s g) = InvokeOutcome.errorOnly ("エラー: " ++ m)) := by
  refine ⟨?_, fun ha => ?_, fun ha hc => ?_, fun ha hc hs hl => ?_,
    fun ha hc hl => ?_, fun m hm => ?_⟩
  · simp [validate_identity_params, pyTruthy, Pure.pure, Except.pure]
  · simp [validate_identity_params, pyTruthy, ha, Pure.pure, Except.pure]
  · simp [validate_identity_params, pyTruthy, ha, hc, Pure.pure, Except.pure]
  · simp [validate_identity_params, pyTruthy, ha, hc, hs, hl, Bind.bind, Except.bind, Pure.pure, Except.pure]
  · have hs : s ≠ "" := by
      intro h
      rw [h] at hl
      simp at hl
    simp [validate_identity_params, pyTruthy, ha, hc, hs, Nat.not_lt.mpr hl,
      Bind.bind, Except.bind, Pure.pure, Except.pure]
  · rw [invoke_mkPayload, hm]

theorem claim_C9_witness :
    validate_identity_params (Json.str "tok") (Json.str "")
        (Json.str "123e4567-e89b-12d3-a456-426614174000") =
      .ok (some "actor_idが指定されていません") ∧
    validate_identity_params (Json.str "tok") (Json.str "actor")
        (Json.str "123e4567-e89b-12d3-a456-426614174000") = .ok none ∧
    invoke (mkInvokePayload "tok" "actor" "s" "https://gw") =
      InvokeOutcome.errorOnly "エラー: session_idは33文字以上にしてください（UUIDを推奨）" :=
  ⟨(claim_C9_amended "tok" "x" "123e4567-e89b-12d3-a456-426614174000" "g").2.1 (by decide),
    (claim_C9_amended "tok" "actor" "123e4567-e89b-12d3-a456-426614174000" "g").2.2.2.2.1
      (by decide) (by decide) (by decide),
    (claim_C9_amended "tok" "actor" "s" "https://gw").2.2.2.2.2 _ rfl⟩

end AgentCoreSpec
